import Mathlib

/-!
Verification development for the cosmosloadtester repository.

This file gives a shallow embedding, in Lean 4, of the parts of the
repository that the verified properties talk about:

* the structured error taxonomy (`pkg/errors/errors.go`, given in the
  repository as an unnamed source file): `ErrorType`, `LoadTestError`,
  `IsRecoverable`, `GetErrorType`;
* the recovery substrate (`pkg/recovery/recovery.go`): the exponential
  backoff retry loop `ExponentialBackoffRetry`, the fixed-delay retry loop
  `SafeExecuteWithRetry`, and the `CircuitBreaker` with its `Execute`,
  `onFailure` and `onSuccess` logic;
* the HTTP RPC client (`pkg/httprpc`), the `SimpleHybridTransactor` and the
  `TransactorFactory.CreateTransactor` dispatch (`pkg/loadtest`);
* the orchestrator `runHybridLoadTest` (`server/hybrid_server.go`): the
  per-endpoint creation loop with best-effort cleanup, the start phase, and
  the cancel/wait/aggregate teardown loop.

Modelling conventions:

* Go functions returning `error` become functions returning `Option GoError`
  (`none` = nil error) or `Except GoError α`.
* Go `error` values are `GoError`: either a plain `fmt.Errorf`-style error
  (possibly wrapping a cause, as `%w` does) or a structured `LoadTestError`.
* `time.Duration` and `float64` quantities (delays, rates) are modelled as
  exact rationals `ℚ`; Go's `float64`/`Duration` conversions are rounding
  details that none of the verified properties depend on.
* Wall-clock instants are `Nat`; `time.Since t` at instant `now` is `now - t`.
* Retry counts are modelled as `Nat` (the repository only ever configures
  non-negative retry counts; the default is 3).
* Side effects that the properties observe (invoking the wrapped function,
  sleeping, creating/cancelling/waiting on a transport, reading stats) are
  reified: the retry loop returns the number of invocations and the list of
  sleep durations, and the orchestrator returns a trace of events.
-/

namespace CosmosLoadTester

/-! ### Error taxonomy (`pkg/errors`) -/

/-- The `ErrorType` constants of `pkg/errors`. -/
inductive ErrorType where
  | config
  | validation
  | profile
  | network
  | endpoint
  | connection
  | timeout
  | loadTest
  | transaction
  | clientFactory
  | broadcast
  | fileSystem
  | permission
  | serialization
  | internal
  | unknown
deriving DecidableEq, Repr

/-- `LoadTestError` (`pkg/errors`): a structured error carrying a category,
a code and a message.  The `Details`, `Cause`, `Context`, `StackTrace`,
`Timestamp` and `Component` fields of the Go struct are free-form metadata
that none of the verified properties read, so they are not modelled. -/
structure LoadTestError where
  type : ErrorType
  code : String
  message : String
deriving DecidableEq, Repr

/-- A Go `error` value as the repository sees it: a plain error built with
`fmt.Errorf`, a `fmt.Errorf` error wrapping a cause via `%w`, or a
structured `*LoadTestError`. -/
inductive GoError where
  | plain (msg : String)
  | wrap (msg : String) (cause : GoError)
  | structured (e : LoadTestError)
deriving DecidableEq, Repr

/-- Equality of Go result values is decidable (used to evaluate concrete
runs). -/
instance {ε α : Type} [DecidableEq ε] [DecidableEq α] :
    DecidableEq (Except ε α) := fun x y =>
  match x, y with
  | .ok a, .ok b =>
    if h : a = b then .isTrue (congrArg Except.ok h)
    else .isFalse fun hc => h (Except.ok.inj hc)
  | .error a, .error b =>
    if h : a = b then .isTrue (congrArg Except.error h)
    else .isFalse fun hc => h (Except.error.inj hc)
  | .ok _, .error _ => .isFalse fun hc => Except.noConfusion hc
  | .error _, .ok _ => .isFalse fun hc => Except.noConfusion hc

/-- `NewError` (`pkg/errors`). -/
def NewError (t : ErrorType) (code message : String) : LoadTestError :=
  ⟨t, code, message⟩

/-- `NewConfigError` (`pkg/errors`). -/
def NewConfigError (code message : String) : LoadTestError :=
  NewError .config code message

/-- `NewConnectionError` (`pkg/errors`). -/
def NewConnectionError (code message : String) : LoadTestError :=
  NewError .connection code message

/-- `IsRecoverable` (`pkg/errors`): only a structured `*LoadTestError` can be
recoverable, and only when its category is Timeout, Connection or Network;
Validation, Config and Permission are explicitly non-recoverable, and every
other category falls to the `default: false` branch.  Any error that is not
a `*LoadTestError` is not recoverable. -/
def IsRecoverable : GoError → Bool
  | .structured e =>
    match e.type with
    | .timeout => true
    | .connection => true
    | .network => true
    | .validation => false
    | .config => false
    | .permission => false
    | _ => false
  | _ => false

/-- `GetErrorType` (`pkg/errors`): the category of a structured error, and
`UNKNOWN` for any error that is not a `*LoadTestError`. -/
def GetErrorType : GoError → ErrorType
  | .structured e => e.type
  | _ => .unknown

/-! ### Retry with backoff (`pkg/recovery`) -/

/-- `RetryConfig` (`pkg/recovery`).  Delays are rationals standing for
`time.Duration`; the backoff factor is a rational standing for `float64`. -/
structure RetryConfig where
  maxRetries : Nat
  initialDelay : ℚ
  maxDelay : ℚ
  backoffFactor : ℚ
deriving DecidableEq, Repr

/-- `DefaultRetryConfig` (`pkg/recovery`): 3 retries, 1s initial delay,
30s max delay, backoff factor 2. -/
def DefaultRetryConfig : RetryConfig :=
  ⟨3, 1, 30, 2⟩

/-- The observable outcome of a retry loop: the returned error (`none` =
success), how many times the wrapped function was invoked, and the sleep
durations performed, in order. -/
structure RetryResult where
  result : Option GoError
  invocations : Nat
  sleeps : List ℚ
deriving DecidableEq, Repr

/-- The loop body of `RecoveryHandler.ExponentialBackoffRetry`
(`pkg/recovery`), with the loop counter reified as remaining fuel:
`fuel` is the number of loop iterations still permitted
(`config.MaxRetries + 1 - attempt`), `attempt` is the current attempt
index, `delay` the current backoff delay, and `lastErr` the error of the
previous attempt.  Each iteration runs `fn`; on success it returns nil
immediately; a non-recoverable error is returned immediately; a recoverable
error sleeps for `delay` and multiplies the delay by the backoff factor
capped at `maxDelay`, except after the final permitted attempt
(`attempt < config.MaxRetries` fails), where the loop exits returning the
last error. -/
def expBackoffGo (fn : Nat → Option GoError) (factor maxDelay : ℚ) :
    Nat → Nat → ℚ → Option GoError → RetryResult
  | 0, _, _, lastErr => ⟨lastErr, 0, []⟩
  | fuel + 1, attempt, delay, _ =>
    match fn attempt with
    | none => ⟨none, 1, []⟩
    | some e =>
      if IsRecoverable e then
        if fuel = 0 then
          ⟨some e, 1, []⟩
        else
          let r := expBackoffGo fn factor maxDelay fuel (attempt + 1)
            (min (delay * factor) maxDelay) (some e)
          ⟨r.result, r.invocations + 1, delay :: r.sleeps⟩
      else
        ⟨some e, 1, []⟩

/-- `RecoveryHandler.ExponentialBackoffRetry` (`pkg/recovery`), with the
side effects reified as a `RetryResult`.  `fn i` is the error produced by
the `i`-th invocation of the wrapped function (`none` = success). -/
def ExponentialBackoffRetry (fn : Nat → Option GoError) (config : RetryConfig) :
    RetryResult :=
  expBackoffGo fn config.backoffFactor config.maxDelay
    (config.maxRetries + 1) 0 config.initialDelay none

/-- The loop body of `RecoveryHandler.SafeExecuteWithRetry`
(`pkg/recovery`): the same loop as `expBackoffGo` but with a fixed delay
between attempts. -/
def safeRetryGo (fn : Nat → Option GoError) (delay : ℚ) :
    Nat → Nat → Option GoError → RetryResult
  | 0, _, lastErr => ⟨lastErr, 0, []⟩
  | fuel + 1, attempt, _ =>
    match fn attempt with
    | none => ⟨none, 1, []⟩
    | some e =>
      if IsRecoverable e then
        if fuel = 0 then
          ⟨some e, 1, []⟩
        else
          let r := safeRetryGo fn delay fuel (attempt + 1) (some e)
          ⟨r.result, r.invocations + 1, delay :: r.sleeps⟩
      else
        ⟨some e, 1, []⟩

/-- `RecoveryHandler.SafeExecuteWithRetry` (`pkg/recovery`). -/
def SafeExecuteWithRetry (fn : Nat → Option GoError) (maxRetries : Nat)
    (delay : ℚ) : RetryResult :=
  safeRetryGo fn delay (maxRetries + 1) 0 none

/-- The sequence of delays that the exponential backoff loop sleeps for:
the head is the current delay, and each subsequent delay is the previous
one multiplied by `factor` and capped at `maxDelay`. -/
def delaySchedule (d factor maxDelay : ℚ) : Nat → List ℚ
  | 0 => []
  | n + 1 => d :: delaySchedule (min (d * factor) maxDelay) factor maxDelay n

/-! ### Circuit breaker (`pkg/recovery`) -/

/-- `CircuitBreakerState` (`pkg/recovery`): `opened` models the Go constant
`CircuitBreakerOpen` (`open` is a Lean keyword). -/
inductive CircuitBreakerState where
  | closed
  | opened
  | halfOpen
deriving DecidableEq, Repr

/-- `CircuitBreaker` (`pkg/recovery`).  `lastFailureTime` is a wall-clock
instant (`Nat`); `resetTimeout` a duration in the same unit. -/
structure CircuitBreaker where
  maxFailures : Nat
  resetTimeout : Nat
  failureCount : Nat
  lastFailureTime : Nat
  state : CircuitBreakerState
deriving DecidableEq, Repr

/-- `NewCircuitBreaker` (`pkg/recovery`): starts closed with a zero failure
count (the Go struct's zero values). -/
def NewCircuitBreaker (maxFailures resetTimeout : Nat) : CircuitBreaker :=
  ⟨maxFailures, resetTimeout, 0, 0, .closed⟩

/-- `CircuitBreaker.onFailure` (`pkg/recovery`): increment the failure
count, record the failure time, and trip to open once the count reaches
`maxFailures`. -/
def CircuitBreaker.onFailure (cb : CircuitBreaker) (now : Nat) : CircuitBreaker :=
  let c := cb.failureCount + 1
  { cb with
    failureCount := c
    lastFailureTime := now
    state := if cb.maxFailures ≤ c then .opened else cb.state }

/-- `CircuitBreaker.onSuccess` (`pkg/recovery`): reset the failure count;
a success while half-open closes the breaker. -/
def CircuitBreaker.onSuccess (cb : CircuitBreaker) : CircuitBreaker :=
  { cb with
    failureCount := 0
    state := if cb.state = .halfOpen then .closed else cb.state }

/-- The observable outcome of one `CircuitBreaker.Execute` call: whether the
wrapped function was invoked, the returned error (`none` = nil), and the
breaker afterwards. -/
structure ExecOut where
  invoked : Bool
  err : Option GoError
  cb : CircuitBreaker
deriving DecidableEq, Repr

/-- The error value `Execute` returns while the breaker is open:
`errors.NewConnectionError("CIRCUIT_BREAKER_OPEN", "Circuit breaker is open")`. -/
def circuitOpenError : GoError :=
  .structured (NewConnectionError "CIRCUIT_BREAKER_OPEN" "Circuit breaker is open")

/-- `CircuitBreaker.Execute` (`pkg/recovery`) at wall-clock instant `now`,
where `fnResult` is the error the wrapped function would produce if invoked
(`none` = success).  While open: if more than `resetTimeout` has elapsed
since the last failure the breaker moves to half-open and proceeds,
otherwise it returns the circuit-open error without invoking the function.
Otherwise the function runs and `onFailure`/`onSuccess` is applied. -/
def CircuitBreaker.execute (cb : CircuitBreaker) (now : Nat)
    (fnResult : Option GoError) : ExecOut :=
  if cb.state = .opened ∧ ¬ cb.resetTimeout < now - cb.lastFailureTime then
    ⟨false, some circuitOpenError, cb⟩
  else
    let cb1 := if cb.state = .opened then { cb with state := .halfOpen } else cb
    match fnResult with
    | some e => ⟨true, some e, cb1.onFailure now⟩
    | none => ⟨true, none, cb1.onSuccess⟩

/-- A sequence of `Execute` calls: each list element is the wall-clock
instant of the call paired with the error the wrapped function would
produce.  Returns the final breaker and the outcome of every call. -/
def executeSeq (cb : CircuitBreaker) :
    List (Nat × Option GoError) → CircuitBreaker × List ExecOut
  | [] => (cb, [])
  | c :: rest =>
    let o := cb.execute c.1 c.2
    let p := executeSeq o.cb rest
    (p.1, o :: p.2)

/-- The breaker obtained from a fresh `NewCircuitBreaker maxFailures
resetTimeout` after one failing `Execute` call at each instant in `ts`. -/
def afterFailures (maxFailures resetTimeout : Nat) (ts : List Nat)
    (err : GoError) : CircuitBreaker :=
  (executeSeq (NewCircuitBreaker maxFailures resetTimeout)
    (ts.map fun t => (t, some err))).1

/-! ### URLs and the HTTP RPC client (`pkg/httprpc`)

The repository parses endpoint URLs with Go's `net/url.Parse`, an external
standard-library function.  Its outcome is taken as an input here: an
`Except GoError ParsedURL` value is either the parse error or the parsed
URL (Go's `url.Parse` lower-cases the scheme, so schemes arrive already
lower-cased).  The same endpoint string always parses to the same outcome,
so a single outcome value is threaded through every function that re-parses
the same string. -/

/-- The fields of a parsed `*url.URL` that the repository reads: the scheme,
`Hostname()` and `Port()` (`""` when the URL carries no port). -/
structure ParsedURL where
  scheme : String
  hostname : String
  port : String
deriving DecidableEq, Repr

/-- `HTTPRPCClient` (`pkg/httprpc`): only the computed base URL is
observable state; the embedded `http.Client` holds no data the verified
properties read. -/
structure HTTPRPCClient where
  baseURL : String
deriving DecidableEq, Repr

/-- `NewHTTPRPCClient` (`pkg/httprpc`): fails on a parse error, accepts only
`http`/`https`, and computes the base URL from hostname and optional port. -/
def NewHTTPRPCClient (parsed : Except GoError ParsedURL) :
    Except GoError HTTPRPCClient :=
  match parsed with
  | .error e => .error (.wrap "invalid endpoint URL" e)
  | .ok u =>
    match u.scheme with
    | "https" =>
      .ok ⟨if u.port = "" then "https://" ++ u.hostname
           else "https://" ++ u.hostname ++ ":" ++ u.port⟩
    | "http" =>
      .ok ⟨if u.port = "" then "http://" ++ u.hostname
           else "http://" ++ u.hostname ++ ":" ++ u.port⟩
    | s =>
      .error (.plain ("unsupported protocol: " ++ s ++
        " (http:// and https:// required for HTTP RPC)"))

/-- `HTTPRPCClient.Close` (`pkg/httprpc`): closes idle connections and
always returns a nil error. -/
def HTTPRPCClient.close (_ : HTTPRPCClient) : Option GoError :=
  none

/-! ### The hybrid transactor (`pkg/loadtest`, `SimpleHybridTransactor`) -/

/-- The fields of `tmloadtest.Config` that the modelled code reads:
`BroadcastTxMethod` (used to build the transactor's broadcast method name)
and `Time` (the test duration in seconds, used by the orchestrator's
response).  The remaining fields are passed through to the external
tm-load-test library and never read by the modelled code. -/
structure Config where
  broadcastTxMethod : String
  time : Nat
deriving DecidableEq, Repr

/-- `SimpleHybridTransactor` (`pkg/loadtest`).  The embedded WebSocket
delegate `wsTransactor` is an external `tmloadtest.Transactor`, modelled as
an opaque token (`Option Unit`); its behaviour enters as parameters of the
operations that delegate to it.  The progress-callback function itself is
modelled by the flag `hasProgressCallback`. -/
structure SimpleHybridTransactor where
  remoteAddr : String
  protocol : String
  broadcastTxMethod : String
  wsTransactor : Option Unit
  httpClient : Option HTTPRPCClient
  progressCallbackID : Nat
  progressCallbackInterval : Nat
  hasProgressCallback : Bool
  startTime : Option Nat
  txCount : Nat
  txBytes : Int
  txRate : ℚ
  stop : Bool
deriving DecidableEq, Repr

/-- `NewHybridTransactor` (`pkg/loadtest`): parses the endpoint, rejects
schemes other than `ws`/`wss`/`http`/`https`, then initialises either the
WebSocket delegate (via the external `tmloadtest.NewTransactor`, whose
outcome is the parameter `wsCtor`) or the HTTP RPC client.  Counters start
at their zero values and the progress interval defaults to 5 seconds. -/
def NewHybridTransactor (wsCtor : Except GoError Unit) (remoteAddr : String)
    (parsed : Except GoError ParsedURL) (config : Config) :
    Except GoError SimpleHybridTransactor :=
  match parsed with
  | .error e => .error (.wrap "invalid endpoint URL" e)
  | .ok u =>
    if u.scheme = "ws" ∨ u.scheme = "wss" ∨ u.scheme = "http" ∨ u.scheme = "https" then
      let base : SimpleHybridTransactor :=
        { remoteAddr := remoteAddr
          protocol := u.scheme
          broadcastTxMethod := "broadcast_tx_" ++ config.broadcastTxMethod
          wsTransactor := none
          httpClient := none
          progressCallbackID := 0
          progressCallbackInterval := 5
          hasProgressCallback := false
          startTime := none
          txCount := 0
          txBytes := 0
          txRate := 0
          stop := false }
      if u.scheme = "ws" ∨ u.scheme = "wss" then
        match wsCtor with
        | .error e => .error (.wrap "failed to create WebSocket transactor" e)
        | .ok _ => .ok { base with wsTransactor := some () }
      else
        match NewHTTPRPCClient parsed with
        | .error e => .error (.wrap "failed to create HTTP RPC client" e)
        | .ok client => .ok { base with httpClient := some client }
    else
      .error (.plain ("unsupported protocol: " ++ u.scheme ++
        " (supported: ws://, wss://, http://, https://)"))

/-- `SimpleHybridTransactor.GetTxCount` (`pkg/loadtest`): delegates to the
WebSocket transactor when present (its answer is the parameter `wsCount`),
otherwise returns the transactor's own counter. -/
def SimpleHybridTransactor.getTxCount (t : SimpleHybridTransactor)
    (wsCount : Nat) : Nat :=
  if t.wsTransactor.isSome then wsCount else t.txCount

/-- `SimpleHybridTransactor.GetTxBytes` (`pkg/loadtest`). -/
def SimpleHybridTransactor.getTxBytes (t : SimpleHybridTransactor)
    (wsBytes : Int) : Int :=
  if t.wsTransactor.isSome then wsBytes else t.txBytes

/-- `SimpleHybridTransactor.GetTxRate` (`pkg/loadtest`). -/
def SimpleHybridTransactor.getTxRate (t : SimpleHybridTransactor)
    (wsRate : ℚ) : ℚ :=
  if t.wsTransactor.isSome then wsRate else t.txRate

/-- `SimpleHybridTransactor.Wait` (`pkg/loadtest`): delegates to the
WebSocket transactor when present (its terminal error is the parameter
`wsWaitErr`); on the HTTP path it closes the HTTP client, which always
returns nil; with neither it returns nil. -/
def SimpleHybridTransactor.waitResult (t : SimpleHybridTransactor)
    (wsWaitErr : Option GoError) : Option GoError :=
  if t.wsTransactor.isSome then wsWaitErr
  else
    match t.httpClient with
    | some c => c.close
    | none => none

/-- One lifecycle call on a `SimpleHybridTransactor`. -/
inductive HybridOp where
  | start (now : Nat)
  | cancel
  | wait
  | setCallback (id : Nat) (interval : Nat)
deriving DecidableEq, Repr

/-- The state change performed by one lifecycle call (`pkg/loadtest`):
`Start` on the WebSocket path delegates (no local state change); on the
HTTP path it records the start time and returns without sending any
transaction (the send loop is explicitly not implemented — it logs a
warning); with neither it only logs an error.  `Cancel` sets the stop flag
(delegation aside).  `Wait` changes no local state.  `SetProgressCallback`
records the id, interval and callback. -/
def applyHybridOp (t : SimpleHybridTransactor) : HybridOp → SimpleHybridTransactor
  | .start now =>
    if t.wsTransactor.isSome then t
    else if t.httpClient.isSome then { t with startTime := some now }
    else t
  | .cancel => { t with stop := true }
  | .wait => t
  | .setCallback id interval =>
    { t with
      progressCallbackID := id
      progressCallbackInterval := interval
      hasProgressCallback := true }

/-- A sequence of lifecycle calls, applied left to right. -/
def applyHybridOps (t : SimpleHybridTransactor) (ops : List HybridOp) :
    SimpleHybridTransactor :=
  ops.foldl applyHybridOp t

/-! ### The transactor factory (`pkg/loadtest`, `TransactorFactory`) -/

/-- A value satisfying `TransactorInterface`, as returned by the factory:
either the external WebSocket `tmloadtest.Transactor` (opaque) or a
`SimpleHybridTransactor`. -/
inductive Transactor where
  | websocket
  | hybrid (t : SimpleHybridTransactor)
deriving DecidableEq, Repr

/-- `TransactorFactory.CreateTransactor` (`pkg/loadtest`): fails on a parse
error; dispatches `ws`/`wss` to the external `tmloadtest.NewTransactor`
(outcome parameter `wsCtor`), `http`/`https` to `NewHybridTransactor`, and
rejects every other scheme with an unsupported-protocol error. -/
def CreateTransactor (wsCtor : Except GoError Unit) (remoteAddr : String)
    (parsed : Except GoError ParsedURL) (config : Config) :
    Except GoError Transactor :=
  match parsed with
  | .error e => .error (.wrap "invalid endpoint URL" e)
  | .ok u =>
    match u.scheme with
    | "ws" => wsCtor.map fun _ => Transactor.websocket
    | "wss" => wsCtor.map fun _ => Transactor.websocket
    | "http" =>
      (NewHybridTransactor wsCtor remoteAddr parsed config).map Transactor.hybrid
    | "https" =>
      (NewHybridTransactor wsCtor remoteAddr parsed config).map Transactor.hybrid
    | s =>
      .error (.plain ("unsupported protocol: " ++ s ++
        " (supported: ws://, wss://, http://, https://)"))

/-- Whether a factory outcome is the streaming (WebSocket) implementation. -/
def isStreamingOutcome : Except GoError Transactor → Bool
  | .ok .websocket => true
  | _ => false

/-- Whether a factory outcome is the request/response (hybrid HTTP)
implementation: a hybrid transactor holding an HTTP RPC client. -/
def isHybridHttpOutcome : Except GoError Transactor → Bool
  | .ok (.hybrid t) => t.httpClient.isSome
  | _ => false

/-! ### The orchestrator (`server/hybrid_server.go`, `runHybridLoadTest`)

The orchestrator manipulates its transports only through the
`TransactorInterface` methods.  Each transport (WebSocket or hybrid) is
therefore modelled by its observable behaviour: the terminal error its
`Wait()` returns, and the counter values its accessors report before and
after `Wait()` has returned (counters may still move while the transport's
send loop is draining; after `Wait()` they are final).  The value at index
`i` of the orchestrator's input list is the outcome of
`TransactorFactory.CreateTransactor` for the `i`-th endpoint. -/

/-- The observable behaviour of one created transport. -/
structure TransportSim where
  waitErr : Option GoError
  preCount : Nat
  postCount : Nat
  preBytes : Int
  postBytes : Int
  preRate : ℚ
  postRate : ℚ
deriving DecidableEq, Repr

/-- `GetTxCount()` on a simulated transport: the final value once `Wait()`
has returned, a possibly different value before. -/
def simTxCount (t : TransportSim) (waited : Bool) : Nat :=
  if waited then t.postCount else t.preCount

/-- `GetTxBytes()` on a simulated transport. -/
def simTxBytes (t : TransportSim) (waited : Bool) : Int :=
  if waited then t.postBytes else t.preBytes

/-- `GetTxRate()` on a simulated transport. -/
def simTxRate (t : TransportSim) (waited : Bool) : ℚ :=
  if waited then t.postRate else t.preRate

/-- One observable step of `runHybridLoadTest`, in program order: the trace
of a run lists every such event the run performed before returning. -/
inductive Event where
  | create (i : Nat)
  | createFailed (i : Nat)
  | setCallback (i : Nat)
  | start (i : Nat)
  | cancel (i : Nat)
  | waited (i : Nat) (err : Option GoError)
  | readStats (i : Nat) (txCount : Nat) (txBytes : Int) (txRate : ℚ)
deriving DecidableEq, Repr

/-- The cleanup performed when transport creation fails: every previously
created transport receives `Cancel()` then `Wait()`, in creation order
(`for _, t := range transactors { t.Cancel(); t.Wait() }`); wait errors are
ignored here. -/
def cleanupEvents : List (Nat × TransportSim) → List Event
  | [] => []
  | (i, t) :: rest => .cancel i :: .waited i t.waitErr :: cleanupEvents rest

/-- The transport-creation loop of `runHybridLoadTest`: for each endpoint,
`CreateTransactor`; on failure, clean up everything created so far and
return the creation error wrapped in the gRPC Internal status; on success,
register the 5-second progress callback (carrying the endpoint index as
transport id) and append the transport.  `i` is the index of the next
endpoint; `created` the transports created so far, paired with their
indices. -/
def createLoop (i : Nat) (created : List (Nat × TransportSim)) :
    List (Except GoError TransportSim) →
    Except GoError (List (Nat × TransportSim)) × List Event
  | [] => (.ok created, [])
  | o :: rest =>
    match o with
    | .error e =>
      (.error (.wrap "failed to create transactor" e),
       .createFailed i :: cleanupEvents created)
    | .ok t =>
      let p := createLoop (i + 1) (created ++ [(i, t)]) rest
      (p.1, .create i :: .setCallback i :: p.2)

/-- The running totals accumulated by the teardown loop. -/
structure Totals where
  totalTxCount : Nat
  totalTxBytes : Int
  sumTxRate : ℚ
deriving DecidableEq, Repr

/-- The teardown loop of `runHybridLoadTest`: for each transport in order,
`Cancel()`, then `Wait()` (an error here is logged, and the loop continues),
then read `GetTxCount`/`GetTxBytes`/`GetTxRate` — all three reads happen
after that transport's `Wait()` has returned, so they see the final values —
and add them to the totals. -/
def teardownLoop : List (Nat × TransportSim) → Totals × List Event
  | [] => (⟨0, 0, 0⟩, [])
  | (i, t) :: rest =>
    let c := simTxCount t true
    let b := simTxBytes t true
    let r := simTxRate t true
    let p := teardownLoop rest
    (⟨c + p.1.totalTxCount, b + p.1.totalTxBytes, r + p.1.sumTxRate⟩,
     .cancel i :: .waited i t.waitErr :: .readStats i c b r :: p.2)

/-- `RunLoadtestResponse` (the fields `runHybridLoadTest` fills in). -/
structure RunLoadtestResponse where
  totalTxs : Int
  totalBytes : Int
  avgTxsPerSecond : ℚ
  avgBytesPerSecond : ℚ
deriving DecidableEq, Repr

/-- `runHybridLoadTest` (`server/hybrid_server.go`), with its observable
steps reified as an event trace.  Creation loop; on success, start every
transport (fire-and-forget); the duration/cancellation race then ends the
active phase (it changes no orchestrator state and is not an event); the
teardown loop cancels, waits and reads stats per transport; the average
rate is the accumulated rate sum divided by the number of transports when
that number is positive; the response is returned with a nil error — wait
errors encountered in the teardown loop were only logged. -/
def runHybridLoadTest (config : Config)
    (outcomes : List (Except GoError TransportSim)) :
    Except GoError RunLoadtestResponse × List Event :=
  match createLoop 0 [] outcomes with
  | (.error e, evs) => (.error e, evs)
  | (.ok created, evs) =>
    let startEvs := created.map fun p => Event.start p.1
    let q := teardownLoop created
    let avg : ℚ :=
      if 0 < created.length then q.1.sumTxRate / created.length
      else q.1.sumTxRate
    (.ok
      { totalTxs := (q.1.totalTxCount : Int)
        totalBytes := q.1.totalTxBytes
        avgTxsPerSecond := avg
        avgBytesPerSecond := (q.1.totalTxBytes : ℚ) / (config.time : ℚ) },
     evs ++ startEvs ++ q.2)

/-- The indices at which the trace records a successful transport creation. -/
def createdIndices (evs : List Event) : List Nat :=
  evs.filterMap fun e =>
    match e with
    | .create i => some i
    | _ => none

/-- The indices at which the trace records a `Cancel()` call. -/
def cancelledIndices (evs : List Event) : List Nat :=
  evs.filterMap fun e =>
    match e with
    | .cancel i => some i
    | _ => none

/-- The indices at which the trace records a returned `Wait()` call. -/
def waitedIndices (evs : List Event) : List Nat :=
  evs.filterMap fun e =>
    match e with
    | .waited i _ => some i
    | _ => none

/-- The indices at which the trace records a `Start()` call. -/
def startedIndices (evs : List Event) : List Nat :=
  evs.filterMap fun e =>
    match e with
    | .start i => some i
    | _ => none

/-- The non-nil `Wait()` errors the trace records, in order: exactly the
errors `runHybridLoadTest` logs. -/
def loggedWaitErrors (evs : List Event) : List GoError :=
  evs.filterMap fun e =>
    match e with
    | .waited _ (some err) => some err
    | _ => none

/-- The transports the creation loop builds for endpoints `i, i+1, ...`,
each paired with its endpoint index. -/
def indexedFrom (i : Nat) : List TransportSim → List (Nat × TransportSim)
  | [] => []
  | t :: ts => (i, t) :: indexedFrom (i + 1) ts

/-- The events the creation loop emits for a run of successful creations
starting at endpoint index `i`: create, then register the progress
callback, per endpoint, in order. -/
def createEvents (i : Nat) : List TransportSim → List Event
  | [] => []
  | _ :: ts => .create i :: .setCallback i :: createEvents (i + 1) ts

/-! ### Lemmas about the retry loops -/

/-- If the wrapped function keeps failing with recoverable errors, one pass
of the backoff loop with `fuel + 1` permitted iterations invokes the
function `fuel + 1` times, returns the last attempt's error, and sleeps for
the delays of the multiply-and-cap schedule. -/
theorem expBackoffGo_allFail (errFn : Nat → GoError)
    (hrec : ∀ i, IsRecoverable (errFn i) = true) (factor maxDelay : ℚ) :
    ∀ (fuel attempt : Nat) (delay : ℚ) (lastErr : Option GoError),
      expBackoffGo (fun i => some (errFn i)) factor maxDelay (fuel + 1)
          attempt delay lastErr =
        ⟨some (errFn (attempt + fuel)), fuel + 1,
          delaySchedule delay factor maxDelay fuel⟩ := by
  intro fuel
  induction fuel with
  | zero =>
    intro attempt delay lastErr
    simp [expBackoffGo, hrec, delaySchedule]
  | succ n ih =>
    intro attempt delay lastErr
    conv_lhs => rw [expBackoffGo]
    simp only []
    rw [if_pos (hrec attempt), if_neg (Nat.succ_ne_zero n)]
    rw [ih (attempt + 1) (min (delay * factor) maxDelay) (some (errFn attempt))]
    have harith : attempt + 1 + n = attempt + (n + 1) := by omega
    rw [harith]
    rfl

/-! ### Claim C5 -/

/-- Claim C5: for every function whose first call fails with a
non-retriable error of Validation, Configuration or Permission category,
`ExponentialBackoffRetry` invokes the function exactly once, returns that
error immediately, and performs no sleep — regardless of the configured
`maxRetries`, delays or backoff factor.  Moreover retriability is decided
by the error's category: Network, Connection and Timeout are retriable;
Validation, Configuration and Permission are not. -/
theorem claim_C5_nonretriable_invoked_once
    (fn : Nat → Option GoError) (le : LoadTestError) (config : RetryConfig)
    (c m : String)
    (hfn : fn 0 = some (.structured le))
    (hcat : le.type = .validation ∨ le.type = .config ∨ le.type = .permission) :
    (ExponentialBackoffRetry fn config).invocations = 1 ∧
    (ExponentialBackoffRetry fn config).result = some (.structured le) ∧
    (ExponentialBackoffRetry fn config).sleeps = [] ∧
    IsRecoverable (.structured ⟨.validation, c, m⟩) = false ∧
    IsRecoverable (.structured ⟨.config, c, m⟩) = false ∧
    IsRecoverable (.structured ⟨.permission, c, m⟩) = false ∧
    IsRecoverable (.structured ⟨.network, c, m⟩) = true ∧
    IsRecoverable (.structured ⟨.connection, c, m⟩) = true ∧
    IsRecoverable (.structured ⟨.timeout, c, m⟩) = true := by
  have hrec : IsRecoverable (.structured le) = false := by
    rcases hcat with h | h | h <;> simp [IsRecoverable, h]
  refine ⟨?_, ?_, ?_, rfl, rfl, rfl, rfl, rfl, rfl⟩ <;>
    simp [ExponentialBackoffRetry, expBackoffGo, hfn, hrec]

/-- Concrete instance of claim C5: a function failing with a Validation
error is invoked exactly once even though 7 retries are configured. -/
theorem claim_C5_witness :
    ((fun _ => some (GoError.structured (NewError .validation "INVALID_CONFIG" "bad"))) 0
      = some (GoError.structured (NewError .validation "INVALID_CONFIG" "bad"))) ∧
    ((NewError .validation "INVALID_CONFIG" "bad").type = .validation ∨
      (NewError .validation "INVALID_CONFIG" "bad").type = .config ∨
      (NewError .validation "INVALID_CONFIG" "bad").type = .permission) ∧
    ((ExponentialBackoffRetry
        (fun _ => some (GoError.structured (NewError .validation "INVALID_CONFIG" "bad")))
        ⟨7, 1, 30, 2⟩).invocations = 1 ∧
      (ExponentialBackoffRetry
        (fun _ => some (GoError.structured (NewError .validation "INVALID_CONFIG" "bad")))
        ⟨7, 1, 30, 2⟩).result
          = some (.structured (NewError .validation "INVALID_CONFIG" "bad")) ∧
      (ExponentialBackoffRetry
        (fun _ => some (GoError.structured (NewError .validation "INVALID_CONFIG" "bad")))
        ⟨7, 1, 30, 2⟩).sleeps = [] ∧
      IsRecoverable (.structured ⟨.validation, "X", "y"⟩) = false ∧
      IsRecoverable (.structured ⟨.config, "X", "y"⟩) = false ∧
      IsRecoverable (.structured ⟨.permission, "X", "y"⟩) = false ∧
      IsRecoverable (.structured ⟨.network, "X", "y"⟩) = true ∧
      IsRecoverable (.structured ⟨.connection, "X", "y"⟩) = true ∧
      IsRecoverable (.structured ⟨.timeout, "X", "y"⟩) = true) :=
  ⟨rfl, Or.inl rfl,
    claim_C5_nonretriable_invoked_once _ _ _ "X" "y" rfl (Or.inl rfl)⟩

/-! ### Claim C6 -/

/-- Claim C6: for every function that keeps failing with retriable errors,
`ExponentialBackoffRetry` performs the initial attempt plus exactly
`maxRetries` retries (`maxRetries + 1` invocations in total — the most the
configuration permits), sleeps once before each retry for the current
delay, multiplying the delay by `backoffFactor` capped at `maxDelay` after
each sleep (the multiply-and-cap schedule `delaySchedule`), and when the
retries are exhausted returns the error from the last attempt. -/
theorem claim_C6_retriable_backoff_schedule
    (errFn : Nat → GoError) (config : RetryConfig)
    (hrec : ∀ i, IsRecoverable (errFn i) = true) :
    (ExponentialBackoffRetry (fun i => some (errFn i)) config).invocations
        = config.maxRetries + 1 ∧
    (ExponentialBackoffRetry (fun i => some (errFn i)) config).result
        = some (errFn config.maxRetries) ∧
    (ExponentialBackoffRetry (fun i => some (errFn i)) config).sleeps
        = delaySchedule config.initialDelay config.backoffFactor
            config.maxDelay config.maxRetries := by
  have h := expBackoffGo_allFail errFn hrec config.backoffFactor config.maxDelay
    config.maxRetries 0 config.initialDelay none
  rw [Nat.zero_add] at h
  refine ⟨?_, ?_, ?_⟩ <;> simp [ExponentialBackoffRetry, h]

/-- Concrete instance of claim C6: with 2 retries, initial delay 1, factor
2 and cap 3, a persistently failing network call is attempted 3 times, the
sleeps are [1, 2], and the final error is returned. -/
theorem claim_C6_witness :
    (∀ i : Nat, IsRecoverable ((fun _ => GoError.structured
        (NewError .network "NETWORK_ERROR" "down")) i) = true) ∧
    ((ExponentialBackoffRetry
        (fun i => some ((fun _ => GoError.structured
          (NewError .network "NETWORK_ERROR" "down")) i)) ⟨2, 1, 3, 2⟩).invocations
          = 2 + 1 ∧
      (ExponentialBackoffRetry
        (fun i => some ((fun _ => GoError.structured
          (NewError .network "NETWORK_ERROR" "down")) i)) ⟨2, 1, 3, 2⟩).result
          = some ((fun _ => GoError.structured
            (NewError .network "NETWORK_ERROR" "down")) 2) ∧
      (ExponentialBackoffRetry
        (fun i => some ((fun _ => GoError.structured
          (NewError .network "NETWORK_ERROR" "down")) i)) ⟨2, 1, 3, 2⟩).sleeps
          = delaySchedule 1 2 3 2) :=
  ⟨fun _ => rfl,
    claim_C6_retriable_backoff_schedule _ ⟨2, 1, 3, 2⟩ (fun _ => rfl)⟩

/-! ### Claim C10 -/

/-- Claim C10: every error value that is not a structured `*LoadTestError`
(for example a plain or wrapped `fmt.Errorf` error) is reported
non-recoverable by `IsRecoverable`, so both retry helpers
(`ExponentialBackoffRetry` and `SafeExecuteWithRetry`) invoke a function
failing with such an error exactly once, return that error, and never
sleep — regardless of the configured retry count and delays. -/
theorem claim_C10_unstructured_error_not_retried
    (fn : Nat → Option GoError) (err : GoError) (config : RetryConfig)
    (maxRetries : Nat) (delay : ℚ)
    (hfn : fn 0 = some err)
    (hns : ∀ le : LoadTestError, err ≠ .structured le) :
    IsRecoverable err = false ∧
    (ExponentialBackoffRetry fn config).invocations = 1 ∧
    (ExponentialBackoffRetry fn config).result = some err ∧
    (ExponentialBackoffRetry fn config).sleeps = [] ∧
    (SafeExecuteWithRetry fn maxRetries delay).invocations = 1 ∧
    (SafeExecuteWithRetry fn maxRetries delay).result = some err ∧
    (SafeExecuteWithRetry fn maxRetries delay).sleeps = [] := by
  have hrec : IsRecoverable err = false := by
    cases err with
    | plain msg => rfl
    | wrap msg cause => rfl
    | structured le => exact absurd rfl (hns le)
  refine ⟨hrec, ?_, ?_, ?_, ?_, ?_, ?_⟩ <;>
    simp [ExponentialBackoffRetry, SafeExecuteWithRetry, expBackoffGo,
      safeRetryGo, hfn, hrec]

/-- Concrete instance of claim C10: a wrapped plain error is never retried
even with 9 retries configured. -/
theorem claim_C10_witness :
    ((fun _ => some (GoError.wrap "request failed" (.plain "EOF"))) 0
      = some (GoError.wrap "request failed" (.plain "EOF"))) ∧
    (∀ le : LoadTestError,
      GoError.wrap "request failed" (.plain "EOF") ≠ .structured le) ∧
    (IsRecoverable (GoError.wrap "request failed" (.plain "EOF")) = false ∧
      (ExponentialBackoffRetry
        (fun _ => some (GoError.wrap "request failed" (.plain "EOF")))
        ⟨9, 1, 30, 2⟩).invocations = 1 ∧
      (ExponentialBackoffRetry
        (fun _ => some (GoError.wrap "request failed" (.plain "EOF")))
        ⟨9, 1, 30, 2⟩).result = some (GoError.wrap "request failed" (.plain "EOF")) ∧
      (ExponentialBackoffRetry
        (fun _ => some (GoError.wrap "request failed" (.plain "EOF")))
        ⟨9, 1, 30, 2⟩).sleeps = [] ∧
      (SafeExecuteWithRetry
        (fun _ => some (GoError.wrap "request failed" (.plain "EOF"))) 9 1).invocations = 1 ∧
      (SafeExecuteWithRetry
        (fun _ => some (GoError.wrap "request failed" (.plain "EOF"))) 9 1).result
          = some (GoError.wrap "request failed" (.plain "EOF")) ∧
      (SafeExecuteWithRetry
        (fun _ => some (GoError.wrap "request failed" (.plain "EOF"))) 9 1).sleeps = []) :=
  ⟨rfl, fun _ h => GoError.noConfusion h,
    claim_C10_unstructured_error_not_retried _ _ ⟨9, 1, 30, 2⟩ 9 1 rfl
      (fun _ h => GoError.noConfusion h)⟩

/-! ### Lemmas about the circuit breaker -/

/-- Unfolding one call of a sequence of `Execute` calls. -/
theorem executeSeq_cons (cb : CircuitBreaker) (now : Nat) (r : Option GoError)
    (rest : List (Nat × Option GoError)) :
    executeSeq cb ((now, r) :: rest) =
      ((executeSeq (cb.execute now r).cb rest).1,
        cb.execute now r :: (executeSeq (cb.execute now r).cb rest).2) := rfl

/-- One failing `Execute` call on a closed breaker invokes the wrapped
function and applies `onFailure`. -/
theorem execute_closed_failure (cb : CircuitBreaker) (t : Nat) (err : GoError)
    (h : cb.state = .closed) :
    cb.execute t (some err) = ⟨true, some err, cb.onFailure t⟩ := by
  simp [CircuitBreaker.execute, h]

/-- A closed breaker fed consecutive failing calls that leave the failure
count strictly below `maxFailures` stays closed, counts every failure, and
invokes the wrapped function every time. -/
theorem executeSeq_failures_below (err : GoError) :
    ∀ (ts : List Nat) (cb : CircuitBreaker),
      cb.state = .closed →
      cb.failureCount + ts.length < cb.maxFailures →
      ((executeSeq cb (ts.map fun t => (t, some err))).1.maxFailures
          = cb.maxFailures ∧
        (executeSeq cb (ts.map fun t => (t, some err))).1.resetTimeout
          = cb.resetTimeout ∧
        (executeSeq cb (ts.map fun t => (t, some err))).1.failureCount
          = cb.failureCount + ts.length ∧
        (executeSeq cb (ts.map fun t => (t, some err))).1.state = .closed ∧
        ((executeSeq cb (ts.map fun t => (t, some err))).2.all
          fun o => o.invoked) = true) := by
  intro ts
  induction ts with
  | nil =>
    intro cb hclosed hlt
    simp [executeSeq, hclosed]
  | cons t rest ih =>
    intro cb hclosed hlt
    simp only [List.length_cons] at hlt
    have hnf : ¬ cb.maxFailures ≤ cb.failureCount + 1 := by omega
    have hstill : (cb.onFailure t).state = .closed := by
      simp [CircuitBreaker.onFailure, hnf, hclosed]
    have hcnt : (cb.onFailure t).failureCount = cb.failureCount + 1 := rfl
    have hmaxp : (cb.onFailure t).maxFailures = cb.maxFailures := rfl
    have hrtp : (cb.onFailure t).resetTimeout = cb.resetTimeout := rfl
    have hlt2 : (cb.onFailure t).failureCount + rest.length
        < (cb.onFailure t).maxFailures := by
      rw [hcnt, hmaxp]; omega
    have hrec := ih (cb.onFailure t) hstill hlt2
    rw [List.map_cons, executeSeq_cons, execute_closed_failure cb t err hclosed]
    dsimp only
    refine ⟨?_, ?_, ?_, ?_, ?_⟩
    · rw [hrec.1, hmaxp]
    · rw [hrec.2.1, hrtp]
    · rw [hrec.2.2.1, hcnt, List.length_cons]
      omega
    · exact hrec.2.2.2.1
    · simp only [List.all_cons, hrec.2.2.2.2]
      rfl

/-- A closed breaker fed exactly enough consecutive failing calls to bring
the failure count up to `maxFailures` ends open with that count, having
invoked the wrapped function on every call. -/
theorem executeSeq_failures_trip (err : GoError) :
    ∀ (ts : List Nat) (cb : CircuitBreaker),
      cb.state = .closed →
      0 < ts.length →
      cb.failureCount + ts.length = cb.maxFailures →
      ((executeSeq cb (ts.map fun t => (t, some err))).1.maxFailures
          = cb.maxFailures ∧
        (executeSeq cb (ts.map fun t => (t, some err))).1.resetTimeout
          = cb.resetTimeout ∧
        (executeSeq cb (ts.map fun t => (t, some err))).1.failureCount
          = cb.maxFailures ∧
        (executeSeq cb (ts.map fun t => (t, some err))).1.state = .opened ∧
        ((executeSeq cb (ts.map fun t => (t, some err))).2.all
          fun o => o.invoked) = true) := by
  intro ts
  induction ts with
  | nil =>
    intro cb _ hpos _
    exact absurd hpos (by simp)
  | cons t rest ih =>
    intro cb hclosed _ heq
    simp only [List.length_cons] at heq
    cases rest with
    | nil =>
      simp only [List.length_nil, Nat.zero_add] at heq
      have hfull : cb.maxFailures ≤ cb.failureCount + 1 := by omega
      rw [List.map_cons, List.map_nil, executeSeq_cons,
        execute_closed_failure cb t err hclosed]
      dsimp only
      simp only [executeSeq]
      refine ⟨rfl, rfl, ?_, ?_, rfl⟩
      · simp only [CircuitBreaker.onFailure]
        omega
      · simp [CircuitBreaker.onFailure, hfull]
    | cons r rs =>
      have hnf : ¬ cb.maxFailures ≤ cb.failureCount + 1 := by
        simp only [List.length_cons] at heq
        omega
      have hstill : (cb.onFailure t).state = .closed := by
        simp [CircuitBreaker.onFailure, hnf, hclosed]
      have hcnt : (cb.onFailure t).failureCount = cb.failureCount + 1 := rfl
      have hmaxp : (cb.onFailure t).maxFailures = cb.maxFailures := rfl
      have hrtp : (cb.onFailure t).resetTimeout = cb.resetTimeout := rfl
      have heq2 : (cb.onFailure t).failureCount + (r :: rs).length
          = (cb.onFailure t).maxFailures := by
        rw [hcnt, hmaxp]
        simp only [List.length_cons] at heq ⊢
        omega
      have hrec := ih (cb.onFailure t) hstill (by simp) heq2
      rw [List.map_cons, executeSeq_cons, execute_closed_failure cb t err hclosed]
      dsimp only
      refine ⟨?_, ?_, ?_, ?_, ?_⟩
      · rw [hrec.1, hmaxp]
      · rw [hrec.2.1, hrtp]
      · rw [hrec.2.2.1, hmaxp]
      · exact hrec.2.2.2.1
      · simp only [List.all_cons, hrec.2.2.2.2]
        rfl

/-! ### Claim C4 -/

/-- Claim C4: for a circuit breaker constructed with `maxFailures ≥ 1` and
`resetTimeout`, after `maxFailures` consecutive failing `Execute` calls
(each of which invoked the wrapped function) the breaker is Open with
failure count `maxFailures`; while Open and within `resetTimeout` of the
last failure, `Execute` rejects immediately with the circuit-open
Connection error, does not invoke the wrapped function, and leaves the
breaker unchanged — whether the call would have failed or succeeded; once
more than `resetTimeout` has elapsed since the last failure, the next call
is let through as the single half-open trial: on success the breaker
returns to Closed with its failure counter reset to zero, and on failure
it reopens; and in the Closed state any success resets the failure counter
to zero while keeping the breaker Closed. -/
theorem claim_C4_circuit_breaker_lifecycle
    (m timeout : Nat) (ts : List Nat) (err err2 : GoError)
    (now now2 : Nat) (cbC : CircuitBreaker)
    (hm : 1 ≤ m) (hts : ts.length = m)
    (h2 : now - (afterFailures m timeout ts err).lastFailureTime ≤ timeout)
    (h3 : timeout < now2 - (afterFailures m timeout ts err).lastFailureTime)
    (hC : cbC.state = .closed) :
    (afterFailures m timeout ts err).state = .opened ∧
    (afterFailures m timeout ts err).failureCount = m ∧
    ((executeSeq (NewCircuitBreaker m timeout)
        (ts.map fun t => (t, some err))).2.all fun o => o.invoked) = true ∧
    (afterFailures m timeout ts err).execute now (some err2) =
      ⟨false, some circuitOpenError, afterFailures m timeout ts err⟩ ∧
    (afterFailures m timeout ts err).execute now none =
      ⟨false, some circuitOpenError, afterFailures m timeout ts err⟩ ∧
    ((afterFailures m timeout ts err).execute now2 none).invoked = true ∧
    ((afterFailures m timeout ts err).execute now2 none).cb.state = .closed ∧
    ((afterFailures m timeout ts err).execute now2 none).cb.failureCount = 0 ∧
    ((afterFailures m timeout ts err).execute now2 (some err2)).invoked = true ∧
    ((afterFailures m timeout ts err).execute now2 (some err2)).cb.state = .opened ∧
    (cbC.execute now none).invoked = true ∧
    (cbC.execute now none).cb.state = .closed ∧
    (cbC.execute now none).cb.failureCount = 0 := by
  have hpos : 0 < ts.length := by omega
  have heq : (NewCircuitBreaker m timeout).failureCount + ts.length
      = (NewCircuitBreaker m timeout).maxFailures := by
    simp [NewCircuitBreaker, hts]
  have hfacts := executeSeq_failures_trip err ts (NewCircuitBreaker m timeout)
    rfl hpos heq
  have hmaxA : (afterFailures m timeout ts err).maxFailures = m := by
    simpa [NewCircuitBreaker] using hfacts.1
  have hrtA : (afterFailures m timeout ts err).resetTimeout = timeout := by
    simpa [NewCircuitBreaker] using hfacts.2.1
  have hcntA : (afterFailures m timeout ts err).failureCount = m := by
    simpa [NewCircuitBreaker] using hfacts.2.2.1
  have hstA : (afterFailures m timeout ts err).state = .opened :=
    hfacts.2.2.2.1
  have hrej : ∀ r : Option GoError,
      (afterFailures m timeout ts err).execute now r =
        ⟨false, some circuitOpenError, afterFailures m timeout ts err⟩ := by
    intro r
    rw [CircuitBreaker.execute, if_pos]
    refine ⟨hstA, ?_⟩
    rw [hrtA]
    omega
  have hcond2 : ¬ ((afterFailures m timeout ts err).state = .opened ∧
      ¬ (afterFailures m timeout ts err).resetTimeout
        < now2 - (afterFailures m timeout ts err).lastFailureTime) := by
    rintro ⟨_, hn⟩
    rw [hrtA] at hn
    exact hn h3
  have hexec2 : (afterFailures m timeout ts err).execute now2 none =
      ⟨true, none,
        ({afterFailures m timeout ts err with
          state := CircuitBreakerState.halfOpen}).onSuccess⟩ := by
    rw [CircuitBreaker.execute, if_neg hcond2, if_pos hstA]
  have hexec3 : (afterFailures m timeout ts err).execute now2 (some err2) =
      ⟨true, some err2,
        ({afterFailures m timeout ts err with
          state := CircuitBreakerState.halfOpen}).onFailure now2⟩ := by
    rw [CircuitBreaker.execute, if_neg hcond2, if_pos hstA]
  have hcondC : ¬ (cbC.state = .opened ∧
      ¬ cbC.resetTimeout < now - cbC.lastFailureTime) := by
    rintro ⟨h, _⟩
    rw [hC] at h
    exact CircuitBreakerState.noConfusion h
  have hCnotOpen : ¬ cbC.state = CircuitBreakerState.opened := by
    rw [hC]
    intro h
    exact CircuitBreakerState.noConfusion h
  have hexecC : cbC.execute now none = ⟨true, none, cbC.onSuccess⟩ := by
    rw [CircuitBreaker.execute, if_neg hcondC, if_neg hCnotOpen]
  refine ⟨hstA, hcntA, hfacts.2.2.2.2, hrej (some err2), hrej none,
    ?_, ?_, ?_, ?_, ?_, ?_, ?_, ?_⟩
  · rw [hexec2]
  · rw [hexec2]
    simp [CircuitBreaker.onSuccess]
  · rw [hexec2]
    simp [CircuitBreaker.onSuccess]
  · rw [hexec3]
  · rw [hexec3]
    simp only [CircuitBreaker.onFailure]
    have hle : ({afterFailures m timeout ts err with
        state := CircuitBreakerState.halfOpen}).maxFailures ≤
      ({afterFailures m timeout ts err with
        state := CircuitBreakerState.halfOpen}).failureCount + 1 := by
      show (afterFailures m timeout ts err).maxFailures ≤
        (afterFailures m timeout ts err).failureCount + 1
      rw [hmaxA, hcntA]
      omega
    rw [if_pos hle]
  · rw [hexecC]
  · rw [hexecC]
    simp [CircuitBreaker.onSuccess, hC]
  · rw [hexecC]
    simp [CircuitBreaker.onSuccess]

/-- Concrete instance of claim C4: a breaker with `maxFailures = 2` and
`resetTimeout = 10` trips after two failures at instants 3 and 4, rejects
a call at instant 7 without invoking it, lets the trial call at instant
100 through, and recloses on its success. -/
theorem claim_C4_witness :
    (1 ≤ 2 ∧ ([3, 4] : List Nat).length = 2 ∧
      7 - (afterFailures 2 10 [3, 4] (.plain "boom")).lastFailureTime ≤ 10 ∧
      10 < 100 - (afterFailures 2 10 [3, 4] (.plain "boom")).lastFailureTime ∧
      (⟨5, 9, 2, 0, .closed⟩ : CircuitBreaker).state = .closed) ∧
    ((afterFailures 2 10 [3, 4] (.plain "boom")).state = .opened ∧
      (afterFailures 2 10 [3, 4] (.plain "boom")).failureCount = 2 ∧
      ((executeSeq (NewCircuitBreaker 2 10)
          (([3, 4] : List Nat).map fun t => (t, some (.plain "boom")))).2.all
        fun o => o.invoked) = true ∧
      (afterFailures 2 10 [3, 4] (.plain "boom")).execute 7 (some (.plain "again")) =
        ⟨false, some circuitOpenError, afterFailures 2 10 [3, 4] (.plain "boom")⟩ ∧
      (afterFailures 2 10 [3, 4] (.plain "boom")).execute 7 none =
        ⟨false, some circuitOpenError, afterFailures 2 10 [3, 4] (.plain "boom")⟩ ∧
      ((afterFailures 2 10 [3, 4] (.plain "boom")).execute 100 none).invoked = true ∧
      ((afterFailures 2 10 [3, 4] (.plain "boom")).execute 100 none).cb.state = .closed ∧
      ((afterFailures 2 10 [3, 4] (.plain "boom")).execute 100 none).cb.failureCount = 0 ∧
      ((afterFailures 2 10 [3, 4] (.plain "boom")).execute 100
          (some (.plain "again"))).invoked = true ∧
      ((afterFailures 2 10 [3, 4] (.plain "boom")).execute 100
          (some (.plain "again"))).cb.state = .opened ∧
      ((⟨5, 9, 2, 0, .closed⟩ : CircuitBreaker).execute 7 none).invoked = true ∧
      ((⟨5, 9, 2, 0, .closed⟩ : CircuitBreaker).execute 7 none).cb.state = .closed ∧
      ((⟨5, 9, 2, 0, .closed⟩ : CircuitBreaker).execute 7 none).cb.failureCount = 0) :=
  ⟨⟨by decide, by decide, by decide, by decide, by decide⟩,
    claim_C4_circuit_breaker_lifecycle 2 10 [3, 4] (.plain "boom") (.plain "again")
      7 100 ⟨5, 9, 2, 0, .closed⟩ (by decide) (by decide) (by decide) (by decide)
      (by decide)⟩

/-! ### Claim C2 -/

/-- Claim C2: for every endpoint whose URL parses, the factory's
`CreateTransactor` returns the streaming (WebSocket) implementation exactly
when the scheme is `ws` or `wss` (provided the delegated WebSocket
constructor succeeds), returns the request/response (hybrid HTTP)
implementation — a hybrid transactor holding an HTTP RPC client — exactly
when the scheme is `http` or `https`, and for any other scheme returns the
unsupported-protocol error and no transport. -/
theorem claim_C2_factory_dispatch
    (wsCtor : Except GoError Unit) (remoteAddr : String) (u : ParsedURL)
    (config : Config) (hws : wsCtor = .ok ()) :
    (isStreamingOutcome (CreateTransactor wsCtor remoteAddr (.ok u) config)
        = true ↔ (u.scheme = "ws" ∨ u.scheme = "wss")) ∧
    (isHybridHttpOutcome (CreateTransactor wsCtor remoteAddr (.ok u) config)
        = true ↔ (u.scheme = "http" ∨ u.scheme = "https")) ∧
    (¬ (u.scheme = "ws" ∨ u.scheme = "wss" ∨ u.scheme = "http" ∨
        u.scheme = "https") →
      CreateTransactor wsCtor remoteAddr (.ok u) config =
        .error (.plain ("unsupported protocol: " ++ u.scheme ++
          " (supported: ws://, wss://, http://, https://)"))) := by
  subst hws
  by_cases h1 : u.scheme = "ws"
  · simp [CreateTransactor, isStreamingOutcome, isHybridHttpOutcome, h1,
      Except.map]
  by_cases h2 : u.scheme = "wss"
  · simp [CreateTransactor, isStreamingOutcome, isHybridHttpOutcome, h2,
      Except.map]
  by_cases h3 : u.scheme = "http"
  · simp [CreateTransactor, NewHybridTransactor, NewHTTPRPCClient,
      isStreamingOutcome, isHybridHttpOutcome, h3, Except.map]
  by_cases h4 : u.scheme = "https"
  · simp [CreateTransactor, NewHybridTransactor, NewHTTPRPCClient,
      isStreamingOutcome, isHybridHttpOutcome, h4, Except.map]
  · simp [CreateTransactor, isStreamingOutcome, isHybridHttpOutcome,
      h1, h2, h3, h4]

/-- Concrete instance of claim C2 at the scheme `ftp`: the factory creates
no transport and reports the unsupported protocol. -/
theorem claim_C2_witness :
    ((Except.ok () : Except GoError Unit) = .ok ()) ∧
    ((isStreamingOutcome (CreateTransactor (.ok ()) "ftp://node"
          (.ok ⟨"ftp", "node", ""⟩) ⟨"sync", 10⟩) = true ↔
        ((⟨"ftp", "node", ""⟩ : ParsedURL).scheme = "ws" ∨
          (⟨"ftp", "node", ""⟩ : ParsedURL).scheme = "wss")) ∧
      (isHybridHttpOutcome (CreateTransactor (.ok ()) "ftp://node"
          (.ok ⟨"ftp", "node", ""⟩) ⟨"sync", 10⟩) = true ↔
        ((⟨"ftp", "node", ""⟩ : ParsedURL).scheme = "http" ∨
          (⟨"ftp", "node", ""⟩ : ParsedURL).scheme = "https")) ∧
      (¬ ((⟨"ftp", "node", ""⟩ : ParsedURL).scheme = "ws" ∨
          (⟨"ftp", "node", ""⟩ : ParsedURL).scheme = "wss" ∨
          (⟨"ftp", "node", ""⟩ : ParsedURL).scheme = "http" ∨
          (⟨"ftp", "node", ""⟩ : ParsedURL).scheme = "https") →
        CreateTransactor (.ok ()) "ftp://node"
            (.ok ⟨"ftp", "node", ""⟩) ⟨"sync", 10⟩ =
          .error (.plain ("unsupported protocol: " ++
            (⟨"ftp", "node", ""⟩ : ParsedURL).scheme ++
            " (supported: ws://, wss://, http://, https://)")))) :=
  ⟨rfl, claim_C2_factory_dispatch (.ok ()) "ftp://node" ⟨"ftp", "node", ""⟩
    ⟨"sync", 10⟩ rfl⟩

/-! ### Claim C8 -/

/-- Claim C8 fails on the code: on a malformed endpoint URL the factory
returns a plain wrapped `fmt.Errorf` error ("invalid endpoint URL: ..."),
not a structured Configuration-category `LoadTestError` — the repository's
own `GetErrorType` classifies the returned error as `UNKNOWN`, not
`CONFIG`.  Shown here on the endpoint `":"`, whose parse fails with Go's
"missing protocol scheme" error. -/
theorem claim_C8_counterexample :
    CreateTransactor (.ok ()) ":"
        (.error (.plain "parse \":\": missing protocol scheme")) ⟨"sync", 10⟩ =
      .error (.wrap "invalid endpoint URL"
        (.plain "parse \":\": missing protocol scheme")) ∧
    GetErrorType (.wrap "invalid endpoint URL"
      (.plain "parse \":\": missing protocol scheme")) = .unknown ∧
    ErrorType.unknown ≠ ErrorType.config :=
  ⟨rfl, rfl, by decide⟩

/-- Claim C8 as amended: for every endpoint whose URL fails to parse, the
factory's `CreateTransactor` returns no transport and a plain error
wrapping the parse error with the message "invalid endpoint URL"; that
error is not a structured `LoadTestError`, so the error taxonomy
classifies it as `UNKNOWN` rather than Configuration-category. -/
theorem claim_C8_amended_plain_error
    (wsCtor : Except GoError Unit) (remoteAddr : String) (perr : GoError)
    (config : Config) :
    CreateTransactor wsCtor remoteAddr (.error perr) config =
      .error (.wrap "invalid endpoint URL" perr) ∧
    GetErrorType (.wrap "invalid endpoint URL" perr) = .unknown :=
  ⟨rfl, rfl⟩

/-! ### Lemmas about the hybrid transactor -/

/-- No lifecycle call changes the delegates or the counters of a
`SimpleHybridTransactor`: `Start` only records the start time, `Cancel`
only sets the stop flag, `Wait` changes nothing, and
`SetProgressCallback` only records the callback. -/
theorem applyHybridOps_fields (ops : List HybridOp) :
    ∀ t : SimpleHybridTransactor,
      (applyHybridOps t ops).wsTransactor = t.wsTransactor ∧
      (applyHybridOps t ops).httpClient = t.httpClient ∧
      (applyHybridOps t ops).txCount = t.txCount ∧
      (applyHybridOps t ops).txBytes = t.txBytes ∧
      (applyHybridOps t ops).txRate = t.txRate := by
  induction ops with
  | nil =>
    intro t
    simp [applyHybridOps]
  | cons op rest ih =>
    intro t
    have hstep : (applyHybridOp t op).wsTransactor = t.wsTransactor ∧
        (applyHybridOp t op).httpClient = t.httpClient ∧
        (applyHybridOp t op).txCount = t.txCount ∧
        (applyHybridOp t op).txBytes = t.txBytes ∧
        (applyHybridOp t op).txRate = t.txRate := by
      cases op with
      | start now =>
        simp only [applyHybridOp]
        split_ifs <;> simp
      | cancel => simp [applyHybridOp]
      | wait => simp [applyHybridOp]
      | setCallback id interval => simp [applyHybridOp]
    have hr := ih (applyHybridOp t op)
    have hops : applyHybridOps t (op :: rest)
        = applyHybridOps (applyHybridOp t op) rest := rfl
    rw [hops]
    exact ⟨hr.1.trans hstep.1, (hr.2.1).trans hstep.2.1,
      (hr.2.2.1).trans hstep.2.2.1, (hr.2.2.2.1).trans hstep.2.2.2.1,
      (hr.2.2.2.2).trans hstep.2.2.2.2⟩

/-! ### Claim C9 -/

/-- Claim C9: a hybrid transactor created for an `http` or `https` endpoint
has no WebSocket delegate and never runs a send loop, so after any sequence
of `Start`/`Cancel`/`Wait`/`SetProgressCallback` calls its `GetTxCount`,
`GetTxBytes` and `GetTxRate` all report 0 and its `Wait` returns no error
(closing the HTTP client always succeeds). -/
theorem claim_C9_http_transactor_inert
    (wsCtor : Except GoError Unit) (remoteAddr : String) (u : ParsedURL)
    (config : Config) (t : SimpleHybridTransactor) (ops : List HybridOp)
    (wsCount : Nat) (wsBytes : Int) (wsRate : ℚ) (wsWaitErr : Option GoError)
    (hscheme : u.scheme = "http" ∨ u.scheme = "https")
    (hok : NewHybridTransactor wsCtor remoteAddr (.ok u) config = .ok t) :
    (applyHybridOps t ops).getTxCount wsCount = 0 ∧
    (applyHybridOps t ops).getTxBytes wsBytes = 0 ∧
    (applyHybridOps t ops).getTxRate wsRate = 0 ∧
    (applyHybridOps t ops).waitResult wsWaitErr = none := by
  have hfields : t.wsTransactor = none ∧ t.txCount = 0 ∧ t.txBytes = 0 ∧
      t.txRate = 0 := by
    rcases hscheme with h | h <;>
      (simp only [NewHybridTransactor, NewHTTPRPCClient, h] at hok
       simp at hok
       subst hok
       exact ⟨rfl, rfl, rfl, rfl⟩)
  have hops := applyHybridOps_fields ops t
  have hwsF : (applyHybridOps t ops).wsTransactor = none :=
    hops.1.trans hfields.1
  refine ⟨?_, ?_, ?_, ?_⟩
  · rw [SimpleHybridTransactor.getTxCount, hwsF]
    simp [hops.2.2.1.trans hfields.2.1]
  · rw [SimpleHybridTransactor.getTxBytes, hwsF]
    simp [hops.2.2.2.1.trans hfields.2.2.1]
  · rw [SimpleHybridTransactor.getTxRate, hwsF]
    simp [hops.2.2.2.2.trans hfields.2.2.2]
  · rw [SimpleHybridTransactor.waitResult, hwsF]
    simp only [Option.isSome_none, Bool.false_eq_true, if_false]
    cases hcl : (applyHybridOps t ops).httpClient with
    | none => rfl
    | some c => rfl

/-- Concrete instance of claim C9: an `http` transactor that is started,
cancelled and waited on still reports zero counters and a nil wait error. -/
theorem claim_C9_witness :
    (((⟨"http", "node", "26657"⟩ : ParsedURL).scheme = "http" ∨
      (⟨"http", "node", "26657"⟩ : ParsedURL).scheme = "https") ∧
      NewHybridTransactor (.ok ()) "http://node:26657"
          (.ok ⟨"http", "node", "26657"⟩) ⟨"sync", 10⟩ =
        .ok ⟨"http://node:26657", "http", "broadcast_tx_sync", none,
          some ⟨"http://node:26657"⟩, 0, 5, false, none, 0, 0, 0, false⟩) ∧
    ((applyHybridOps ⟨"http://node:26657", "http", "broadcast_tx_sync", none,
        some ⟨"http://node:26657"⟩, 0, 5, false, none, 0, 0, 0, false⟩
        [.setCallback 0 5, .start 11, .cancel, .wait]).getTxCount 7 = 0 ∧
      (applyHybridOps ⟨"http://node:26657", "http", "broadcast_tx_sync", none,
        some ⟨"http://node:26657"⟩, 0, 5, false, none, 0, 0, 0, false⟩
        [.setCallback 0 5, .start 11, .cancel, .wait]).getTxBytes 9 = 0 ∧
      (applyHybridOps ⟨"http://node:26657", "http", "broadcast_tx_sync", none,
        some ⟨"http://node:26657"⟩, 0, 5, false, none, 0, 0, 0, false⟩
        [.setCallback 0 5, .start 11, .cancel, .wait]).getTxRate 3 = 0 ∧
      (applyHybridOps ⟨"http://node:26657", "http", "broadcast_tx_sync", none,
        some ⟨"http://node:26657"⟩, 0, 5, false, none, 0, 0, 0, false⟩
        [.setCallback 0 5, .start 11, .cancel, .wait]).waitResult
          (some (.plain "ws failure")) = none) :=
  ⟨⟨Or.inl rfl, rfl⟩,
    claim_C9_http_transactor_inert (.ok ()) "http://node:26657"
      ⟨"http", "node", "26657"⟩ ⟨"sync", 10⟩
      ⟨"http://node:26657", "http", "broadcast_tx_sync", none,
        some ⟨"http://node:26657"⟩, 0, 5, false, none, 0, 0, 0, false⟩
      [.setCallback 0 5, .start 11, .cancel, .wait] 7 9 3
      (some (.plain "ws failure")) (Or.inl rfl) rfl⟩

/-! ### Lemmas about the orchestrator -/

/-- Unfolding one step of `indexedFrom`. -/
theorem indexedFrom_cons (i : Nat) (t : TransportSim) (ts : List TransportSim) :
    indexedFrom i (t :: ts) = (i, t) :: indexedFrom (i + 1) ts := rfl

/-- `indexedFrom` preserves length. -/
theorem indexedFrom_length : ∀ (ts : List TransportSim) (i : Nat),
    (indexedFrom i ts).length = ts.length := by
  intro ts
  induction ts with
  | nil => intro i; rfl
  | cons t rest ih =>
    intro i
    simp [indexedFrom, ih (i + 1)]

/-- The indices of `indexedFrom i ts` are `i, i+1, ..., i + ts.length - 1`. -/
theorem indexedFrom_map_fst : ∀ (ts : List TransportSim) (i : Nat),
    (indexedFrom i ts).map Prod.fst = List.range' i ts.length := by
  intro ts
  induction ts with
  | nil => intro i; rfl
  | cons t rest ih =>
    intro i
    simp only [indexedFrom, List.map_cons, ih (i + 1), List.length_cons]
    rfl

/-- Mapping a function of the transport over `indexedFrom` forgets the
indices. -/
theorem indexedFrom_map_comp {α : Type} (f : TransportSim → α) :
    ∀ (ts : List TransportSim) (i : Nat),
      (indexedFrom i ts).map (fun p => f p.2) = ts.map f := by
  intro ts
  induction ts with
  | nil => intro i; rfl
  | cons t rest ih =>
    intro i
    simp [indexedFrom, ih (i + 1)]

/-- Filter-mapping a function of the transport over `indexedFrom` forgets
the indices. -/
theorem indexedFrom_filterMap_comp {α : Type} (f : TransportSim → Option α) :
    ∀ (ts : List TransportSim) (i : Nat),
      (indexedFrom i ts).filterMap (fun p => f p.2) = ts.filterMap f := by
  intro ts
  induction ts with
  | nil => intro i; rfl
  | cons t rest ih =>
    intro i
    simp only [indexedFrom, List.filterMap_cons, ih (i + 1)]

/-- How `createdIndices` consumes one event. -/
@[simp] theorem createdIndices_cons (e : Event) (l : List Event) :
    createdIndices (e :: l) =
      match e with
      | .create i => i :: createdIndices l
      | _ => createdIndices l := by
  cases e <;> rfl

/-- How `cancelledIndices` consumes one event. -/
@[simp] theorem cancelledIndices_cons (e : Event) (l : List Event) :
    cancelledIndices (e :: l) =
      match e with
      | .cancel i => i :: cancelledIndices l
      | _ => cancelledIndices l := by
  cases e <;> rfl

/-- How `waitedIndices` consumes one event. -/
@[simp] theorem waitedIndices_cons (e : Event) (l : List Event) :
    waitedIndices (e :: l) =
      match e with
      | .waited i _ => i :: waitedIndices l
      | _ => waitedIndices l := by
  cases e <;> rfl

/-- How `startedIndices` consumes one event. -/
@[simp] theorem startedIndices_cons (e : Event) (l : List Event) :
    startedIndices (e :: l) =
      match e with
      | .start i => i :: startedIndices l
      | _ => startedIndices l := by
  cases e <;> rfl

/-- How `loggedWaitErrors` consumes one event. -/
@[simp] theorem loggedWaitErrors_cons (e : Event) (l : List Event) :
    loggedWaitErrors (e :: l) =
      match e with
      | .waited _ (some err) => err :: loggedWaitErrors l
      | _ => loggedWaitErrors l := by
  cases e with
  | waited i w => cases w <;> rfl
  | create i => rfl
  | createFailed i => rfl
  | setCallback i => rfl
  | start i => rfl
  | cancel i => rfl
  | readStats i c b r => rfl

/-- `createdIndices` on an empty trace. -/
@[simp] theorem createdIndices_nil : createdIndices [] = [] := rfl

/-- `cancelledIndices` on an empty trace. -/
@[simp] theorem cancelledIndices_nil : cancelledIndices [] = [] := rfl

/-- `waitedIndices` on an empty trace. -/
@[simp] theorem waitedIndices_nil : waitedIndices [] = [] := rfl

/-- `startedIndices` on an empty trace. -/
@[simp] theorem startedIndices_nil : startedIndices [] = [] := rfl

/-- `loggedWaitErrors` on an empty trace. -/
@[simp] theorem loggedWaitErrors_nil : loggedWaitErrors [] = [] := rfl

/-- `createdIndices` distributes over trace concatenation. -/
@[simp] theorem createdIndices_append (l1 l2 : List Event) :
    createdIndices (l1 ++ l2) = createdIndices l1 ++ createdIndices l2 := by
  simp [createdIndices, List.filterMap_append]

/-- `cancelledIndices` distributes over trace concatenation. -/
@[simp] theorem cancelledIndices_append (l1 l2 : List Event) :
    cancelledIndices (l1 ++ l2) = cancelledIndices l1 ++ cancelledIndices l2 := by
  simp [cancelledIndices, List.filterMap_append]

/-- `waitedIndices` distributes over trace concatenation. -/
@[simp] theorem waitedIndices_append (l1 l2 : List Event) :
    waitedIndices (l1 ++ l2) = waitedIndices l1 ++ waitedIndices l2 := by
  simp [waitedIndices, List.filterMap_append]

/-- `startedIndices` distributes over trace concatenation. -/
@[simp] theorem startedIndices_append (l1 l2 : List Event) :
    startedIndices (l1 ++ l2) = startedIndices l1 ++ startedIndices l2 := by
  simp [startedIndices, List.filterMap_append]

/-- `loggedWaitErrors` distributes over trace concatenation. -/
@[simp] theorem loggedWaitErrors_append (l1 l2 : List Event) :
    loggedWaitErrors (l1 ++ l2) = loggedWaitErrors l1 ++ loggedWaitErrors l2 := by
  simp [loggedWaitErrors, List.filterMap_append]

/-- A creation loop over successful outcomes creates every transport, in
order, and emits the create/register events. -/
theorem createLoop_ok : ∀ (ts : List TransportSim) (i : Nat)
    (acc : List (Nat × TransportSim)),
    createLoop i acc (ts.map Except.ok) =
      (.ok (acc ++ indexedFrom i ts), createEvents i ts) := by
  intro ts
  induction ts with
  | nil =>
    intro i acc
    simp [createLoop, indexedFrom, createEvents]
  | cons t rest ih =>
    intro i acc
    have hstep : createLoop i acc (((t :: rest).map Except.ok)) =
        ((createLoop (i + 1) (acc ++ [(i, t)]) (rest.map Except.ok)).1,
          .create i :: .setCallback i ::
            (createLoop (i + 1) (acc ++ [(i, t)]) (rest.map Except.ok)).2) := rfl
    rw [hstep, ih (i + 1) (acc ++ [(i, t)])]
    simp [indexedFrom, createEvents]

/-- A creation loop whose first failure comes after `ts.length` successful
creations returns the wrapped creation error, having first created and
registered the prefix and then cancelled and waited on every created
transport, in order. -/
theorem createLoop_err : ∀ (ts : List TransportSim) (i : Nat)
    (acc : List (Nat × TransportSim)) (e : GoError)
    (rest : List (Except GoError TransportSim)),
    createLoop i acc (ts.map Except.ok ++ .error e :: rest) =
      (.error (.wrap "failed to create transactor" e),
       createEvents i ts ++ .createFailed (i + ts.length) ::
         cleanupEvents (acc ++ indexedFrom i ts)) := by
  intro ts
  induction ts with
  | nil =>
    intro i acc e rest
    simp [createLoop, indexedFrom, createEvents]
  | cons t rest0 ih =>
    intro i acc e rest
    have hstep : createLoop i acc ((t :: rest0).map Except.ok ++ .error e :: rest) =
        ((createLoop (i + 1) (acc ++ [(i, t)])
            (rest0.map Except.ok ++ .error e :: rest)).1,
          .create i :: .setCallback i ::
            (createLoop (i + 1) (acc ++ [(i, t)])
              (rest0.map Except.ok ++ .error e :: rest)).2) := rfl
    rw [hstep, ih (i + 1) (acc ++ [(i, t)]) e rest]
    have harith : i + 1 + rest0.length = i + (rest0.length + 1) := by omega
    simp only [createEvents, indexedFrom, List.length_cons, List.cons_append,
      List.append_assoc, List.singleton_append, List.nil_append, harith]

/-- Unfolding one step of the teardown loop. -/
theorem teardownLoop_cons (i : Nat) (t : TransportSim)
    (rest : List (Nat × TransportSim)) :
    teardownLoop ((i, t) :: rest) =
      (⟨simTxCount t true + (teardownLoop rest).1.totalTxCount,
        simTxBytes t true + (teardownLoop rest).1.totalTxBytes,
        simTxRate t true + (teardownLoop rest).1.sumTxRate⟩,
       .cancel i :: .waited i t.waitErr ::
         .readStats i (simTxCount t true) (simTxBytes t true) (simTxRate t true) ::
         (teardownLoop rest).2) := rfl

/-- The totals the teardown loop accumulates are the sums of the post-wait
counter snapshots. -/
theorem teardownLoop_totals : ∀ l : List (Nat × TransportSim),
    (teardownLoop l).1.totalTxCount = (l.map fun p => simTxCount p.2 true).sum ∧
    (teardownLoop l).1.totalTxBytes = (l.map fun p => simTxBytes p.2 true).sum ∧
    (teardownLoop l).1.sumTxRate = (l.map fun p => simTxRate p.2 true).sum := by
  intro l
  induction l with
  | nil => exact ⟨rfl, rfl, rfl⟩
  | cons p rest ih =>
    obtain ⟨i, t⟩ := p
    rw [teardownLoop_cons]
    simp only [List.map_cons, List.sum_cons]
    exact ⟨by rw [ih.1], by rw [ih.2.1], by rw [ih.2.2]⟩

/-- What each index extractor sees in the creation events. -/
theorem createEvents_extracts : ∀ (ts : List TransportSim) (i : Nat),
    createdIndices (createEvents i ts) = List.range' i ts.length ∧
    cancelledIndices (createEvents i ts) = [] ∧
    waitedIndices (createEvents i ts) = [] ∧
    startedIndices (createEvents i ts) = [] ∧
    loggedWaitErrors (createEvents i ts) = [] := by
  intro ts
  induction ts with
  | nil =>
    intro i
    exact ⟨rfl, rfl, rfl, rfl, rfl⟩
  | cons t rest ih =>
    intro i
    have h := ih (i + 1)
    refine ⟨?_, ?_, ?_, ?_, ?_⟩ <;>
      simp [createEvents, h.1, h.2.1, h.2.2.1, h.2.2.2.1, h.2.2.2.2]
    rfl

/-- What each index extractor sees in the cleanup events. -/
theorem cleanupEvents_extracts : ∀ l : List (Nat × TransportSim),
    cancelledIndices (cleanupEvents l) = l.map Prod.fst ∧
    waitedIndices (cleanupEvents l) = l.map Prod.fst ∧
    createdIndices (cleanupEvents l) = [] ∧
    startedIndices (cleanupEvents l) = [] := by
  intro l
  induction l with
  | nil => exact ⟨rfl, rfl, rfl, rfl⟩
  | cons p rest ih =>
    obtain ⟨i, t⟩ := p
    refine ⟨?_, ?_, ?_, ?_⟩ <;>
      simp [cleanupEvents, ih.1, ih.2.1, ih.2.2.1, ih.2.2.2]

/-- What each extractor sees in the teardown trace. -/
theorem teardownLoop_trace : ∀ l : List (Nat × TransportSim),
    cancelledIndices (teardownLoop l).2 = l.map Prod.fst ∧
    waitedIndices (teardownLoop l).2 = l.map Prod.fst ∧
    createdIndices (teardownLoop l).2 = [] ∧
    startedIndices (teardownLoop l).2 = [] ∧
    loggedWaitErrors (teardownLoop l).2 = l.filterMap fun p => p.2.waitErr := by
  intro l
  induction l with
  | nil => exact ⟨rfl, rfl, rfl, rfl, rfl⟩
  | cons p rest ih =>
    obtain ⟨i, t⟩ := p
    rw [teardownLoop_cons]
    refine ⟨?_, ?_, ?_, ?_, ?_⟩ <;>
      cases hw : t.waitErr <;>
      simp [hw, ih.1, ih.2.1, ih.2.2.1, ih.2.2.2.1, ih.2.2.2.2,
        List.filterMap_cons]

/-- What each extractor sees in the start events. -/
theorem startEvents_extracts : ∀ l : List (Nat × TransportSim),
    startedIndices (l.map fun p => Event.start p.1) = l.map Prod.fst ∧
    cancelledIndices (l.map fun p => Event.start p.1) = [] ∧
    waitedIndices (l.map fun p => Event.start p.1) = [] ∧
    createdIndices (l.map fun p => Event.start p.1) = [] ∧
    loggedWaitErrors (l.map fun p => Event.start p.1) = [] := by
  intro l
  induction l with
  | nil => exact ⟨rfl, rfl, rfl, rfl, rfl⟩
  | cons p rest ih =>
    obtain ⟨i, t⟩ := p
    refine ⟨?_, ?_, ?_, ?_, ?_⟩ <;>
      simp [ih.1, ih.2.1, ih.2.2.1, ih.2.2.2.1, ih.2.2.2.2]

/-- A run whose transports are all created successfully returns, with a nil
error, the response summing the post-wait counter snapshots and averaging
the post-wait rates, and its trace is the creation events, then the start
events, then the teardown events. -/
theorem runHybridLoadTest_ok (config : Config) (ts : List TransportSim) :
    runHybridLoadTest config (ts.map Except.ok) =
      (.ok { totalTxs := ((ts.map fun t => simTxCount t true).sum : Int)
             totalBytes := (ts.map fun t => simTxBytes t true).sum
             avgTxsPerSecond :=
               if 0 < ts.length then
                 (ts.map fun t => simTxRate t true).sum / (ts.length : ℚ)
               else 0
             avgBytesPerSecond :=
               ((ts.map fun t => simTxBytes t true).sum : ℚ) / (config.time : ℚ) },
       createEvents 0 ts ++ (indexedFrom 0 ts).map (fun p => Event.start p.1)
         ++ (teardownLoop (indexedFrom 0 ts)).2) := by
  have htot := teardownLoop_totals (indexedFrom 0 ts)
  have hmc := indexedFrom_map_comp (fun t => simTxCount t true) ts 0
  have hmb := indexedFrom_map_comp (fun t => simTxBytes t true) ts 0
  have hmr := indexedFrom_map_comp (fun t => simTxRate t true) ts 0
  have hlen := indexedFrom_length ts 0
  simp only [runHybridLoadTest, createLoop_ok ts 0 [], List.nil_append,
    htot.1, htot.2.1, htot.2.2, hmc, hmb, hmr, hlen]
  by_cases hpos : 0 < ts.length
  · simp [hpos]
  · have hnil : ts = [] := by
      cases ts with
      | nil => rfl
      | cons a b => simp at hpos
    subst hnil
    simp

/-- A run whose transport creation fails after a prefix of successes
returns the wrapped creation error; its trace is the prefix's creation
events, the failure, and the cleanup of the prefix. -/
theorem runHybridLoadTest_err (config : Config) (pre : List TransportSim)
    (e : GoError) (rest : List (Except GoError TransportSim)) :
    runHybridLoadTest config (pre.map Except.ok ++ .error e :: rest) =
      (.error (.wrap "failed to create transactor" e),
       createEvents 0 pre ++ .createFailed pre.length ::
         cleanupEvents (indexedFrom 0 pre)) := by
  simp only [runHybridLoadTest, createLoop_err pre 0 [] e rest,
    List.nil_append, Nat.zero_add]

/-! ### Claim C7 -/

/-- Claim C7: in a normal run over any non-empty list of transports, with
any per-transport counts including zero, `TotalTxs` is the sum of the
per-transport `GetTxCount()` snapshots taken after each transport's
`Wait()` has returned (`simTxCount · true` is the post-wait snapshot),
`TotalBytes` is the sum of the post-wait `GetTxBytes()` snapshots, and the
reported average rate is the simple arithmetic mean of the post-wait
`GetTxRate()` values — their sum divided by the number of transports, not
a recomputed global rate. -/
theorem claim_C7_aggregate_sums (config : Config) (ts : List TransportSim)
    (hne : ts ≠ []) :
    (runHybridLoadTest config (ts.map Except.ok)).1 =
      .ok { totalTxs := ((ts.map fun t => simTxCount t true).sum : Int)
            totalBytes := (ts.map fun t => simTxBytes t true).sum
            avgTxsPerSecond :=
              (ts.map fun t => simTxRate t true).sum / (ts.length : ℚ)
            avgBytesPerSecond :=
              ((ts.map fun t => simTxBytes t true).sum : ℚ) / (config.time : ℚ) } := by
  rw [runHybridLoadTest_ok]
  have hpos : 0 < ts.length := List.length_pos.mpr hne
  simp [hpos]

/-- Concrete instance of claim C7: two transports with post-wait snapshots
(2 txs, 20 bytes, rate 2) and (4 txs, 40 bytes, rate 4). -/
theorem claim_C7_witness :
    (([⟨none, 1, 2, 10, 20, 1, 2⟩, ⟨none, 3, 4, 30, 40, 3, 4⟩] :
        List TransportSim) ≠ []) ∧
    (runHybridLoadTest ⟨"sync", 10⟩
        (([⟨none, 1, 2, 10, 20, 1, 2⟩, ⟨none, 3, 4, 30, 40, 3, 4⟩] :
          List TransportSim).map Except.ok)).1 =
      .ok { totalTxs := ((([⟨none, 1, 2, 10, 20, 1, 2⟩,
              ⟨none, 3, 4, 30, 40, 3, 4⟩] :
              List TransportSim).map fun t => simTxCount t true).sum : Int)
            totalBytes := (([⟨none, 1, 2, 10, 20, 1, 2⟩,
              ⟨none, 3, 4, 30, 40, 3, 4⟩] :
              List TransportSim).map fun t => simTxBytes t true).sum
            avgTxsPerSecond := (([⟨none, 1, 2, 10, 20, 1, 2⟩,
              ⟨none, 3, 4, 30, 40, 3, 4⟩] :
              List TransportSim).map fun t => simTxRate t true).sum /
                ((([⟨none, 1, 2, 10, 20, 1, 2⟩, ⟨none, 3, 4, 30, 40, 3, 4⟩] :
                  List TransportSim).length : ℚ))
            avgBytesPerSecond := ((([⟨none, 1, 2, 10, 20, 1, 2⟩,
              ⟨none, 3, 4, 30, 40, 3, 4⟩] :
              List TransportSim).map fun t => simTxBytes t true).sum : ℚ) /
                (((⟨"sync", 10⟩ : Config).time : ℚ)) } :=
  ⟨by decide,
    claim_C7_aggregate_sums ⟨"sync", 10⟩
      [⟨none, 1, 2, 10, 20, 1, 2⟩, ⟨none, 3, 4, 30, 40, 3, 4⟩] (by decide)⟩

/-! ### Claim C1 -/

/-- Claim C1 fails on the code: in a run where the first transport's
`Wait()` returns an error, `runHybridLoadTest` still returns the aggregate
report, but with a nil error — the wait error is logged (it appears in the
trace) yet no error collector exists and no multi-error is returned
alongside the report. -/
theorem claim_C1_counterexample :
    (runHybridLoadTest ⟨"sync", 10⟩
        [.ok ⟨some (.plain "ws wait failed"), 1, 2, 10, 20, 1, 2⟩,
         .ok ⟨none, 3, 3, 30, 30, 4, 4⟩]).1 =
      .ok ⟨5, 50, 3, 5⟩ ∧
    Event.waited 0 (some (.plain "ws wait failed")) ∈
      (runHybridLoadTest ⟨"sync", 10⟩
        [.ok ⟨some (.plain "ws wait failed"), 1, 2, 10, 20, 1, 2⟩,
         .ok ⟨none, 3, 3, 30, 30, 4, 4⟩]).2 := by
  have hmap : ([.ok ⟨some (.plain "ws wait failed"), 1, 2, 10, 20, 1, 2⟩,
        .ok ⟨none, 3, 3, 30, 30, 4, 4⟩] : List (Except GoError TransportSim)) =
      ([⟨some (.plain "ws wait failed"), 1, 2, 10, 20, 1, 2⟩,
        ⟨none, 3, 3, 30, 30, 4, 4⟩] : List TransportSim).map Except.ok := rfl
  rw [hmap, runHybridLoadTest_ok]
  constructor
  · simp [simTxCount, simTxBytes, simTxRate]
    norm_num
  · simp [createEvents, indexedFrom, teardownLoop]

/-- Claim C1 as amended: when transports' `Wait()` calls return errors,
the orchestrator still cancels and waits on every transport in turn
without aborting early (every index is cancelled and waited on, in order),
includes every transport's post-wait statistics in the aggregate report,
and logs exactly the non-nil wait errors — but it accumulates them into no
error collector and returns the report with a nil error instead of a
multi-error. -/
theorem claim_C1_amended_wait_errors_only_logged (config : Config)
    (ts : List TransportSim) :
    (runHybridLoadTest config (ts.map Except.ok)).1 =
      .ok { totalTxs := ((ts.map fun t => simTxCount t true).sum : Int)
            totalBytes := (ts.map fun t => simTxBytes t true).sum
            avgTxsPerSecond :=
              if 0 < ts.length then
                (ts.map fun t => simTxRate t true).sum / (ts.length : ℚ)
              else 0
            avgBytesPerSecond :=
              ((ts.map fun t => simTxBytes t true).sum : ℚ) / (config.time : ℚ) } ∧
    cancelledIndices (runHybridLoadTest config (ts.map Except.ok)).2 =
      List.range ts.length ∧
    waitedIndices (runHybridLoadTest config (ts.map Except.ok)).2 =
      List.range ts.length ∧
    loggedWaitErrors (runHybridLoadTest config (ts.map Except.ok)).2 =
      ts.filterMap fun t => t.waitErr := by
  rw [runHybridLoadTest_ok]
  have hce := createEvents_extracts ts 0
  have hse := startEvents_extracts (indexedFrom 0 ts)
  have hte := teardownLoop_trace (indexedFrom 0 ts)
  refine ⟨rfl, ?_, ?_, ?_⟩
  · simp [hce.2.1, hse.2.1, hte.1, indexedFrom_map_fst, List.range_eq_range']
  · simp [hce.2.2.1, hse.2.2.1, hte.2.1, indexedFrom_map_fst,
      List.range_eq_range']
  · simp [hce.2.2.2.2, hse.2.2.2.2, hte.2.2.2.2,
      indexedFrom_filterMap_comp (fun t => t.waitErr) ts 0]

/-! ### Claim C3 -/

/-- Claim C3: if transport creation fails at index `k` with `k < N - 1`,
every previously created transport at indices `0..k-1` receives `Cancel()`
and `Wait()` before the creation error is returned (the trace — everything
the run did before returning — cancels and waits on exactly the indices
`0..k-1`), exactly the transports at indices `0..k-1` are ever created,
and none is ever started. -/
theorem claim_C3_creation_failure_cleanup (config : Config)
    (pre : List TransportSim) (e : GoError)
    (rest : List (Except GoError TransportSim)) (_hrest : rest ≠ []) :
    (runHybridLoadTest config (pre.map Except.ok ++ .error e :: rest)).1 =
      .error (.wrap "failed to create transactor" e) ∧
    createdIndices
        (runHybridLoadTest config (pre.map Except.ok ++ .error e :: rest)).2 =
      List.range pre.length ∧
    cancelledIndices
        (runHybridLoadTest config (pre.map Except.ok ++ .error e :: rest)).2 =
      List.range pre.length ∧
    waitedIndices
        (runHybridLoadTest config (pre.map Except.ok ++ .error e :: rest)).2 =
      List.range pre.length ∧
    startedIndices
        (runHybridLoadTest config (pre.map Except.ok ++ .error e :: rest)).2 =
      [] := by
  rw [runHybridLoadTest_err]
  have hce := createEvents_extracts pre 0
  have hcl := cleanupEvents_extracts (indexedFrom 0 pre)
  refine ⟨rfl, ?_, ?_, ?_, ?_⟩
  · simp [hce.1, hcl.2.2.1, List.range_eq_range']
  · simp [hce.2.1, hcl.1, indexedFrom_map_fst, List.range_eq_range']
  · simp [hce.2.2.1, hcl.2.1, indexedFrom_map_fst, List.range_eq_range']
  · simp [hce.2.2.2.1, hcl.2.2.2]

/-- Concrete instance of claim C3: creation succeeds at index 0, fails at
index 1 of 3 endpoints; transport 0 is cancelled and waited on, nothing
beyond index 0 is created, and the creation error is returned. -/
theorem claim_C3_witness :
    (([.ok ⟨none, 0, 0, 0, 0, 0, 0⟩] :
        List (Except GoError TransportSim)) ≠ []) ∧
    ((runHybridLoadTest ⟨"sync", 10⟩
        (([⟨none, 1, 2, 10, 20, 1, 2⟩] : List TransportSim).map Except.ok ++
          .error (.plain "dial tcp: connection refused") ::
            [.ok ⟨none, 0, 0, 0, 0, 0, 0⟩])).1 =
      .error (.wrap "failed to create transactor"
        (.plain "dial tcp: connection refused")) ∧
    createdIndices (runHybridLoadTest ⟨"sync", 10⟩
        (([⟨none, 1, 2, 10, 20, 1, 2⟩] : List TransportSim).map Except.ok ++
          .error (.plain "dial tcp: connection refused") ::
            [.ok ⟨none, 0, 0, 0, 0, 0, 0⟩])).2 =
      List.range ([⟨none, 1, 2, 10, 20, 1, 2⟩] : List TransportSim).length ∧
    cancelledIndices (runHybridLoadTest ⟨"sync", 10⟩
        (([⟨none, 1, 2, 10, 20, 1, 2⟩] : List TransportSim).map Except.ok ++
          .error (.plain "dial tcp: connection refused") ::
            [.ok ⟨none, 0, 0, 0, 0, 0, 0⟩])).2 =
      List.range ([⟨none, 1, 2, 10, 20, 1, 2⟩] : List TransportSim).length ∧
    waitedIndices (runHybridLoadTest ⟨"sync", 10⟩
        (([⟨none, 1, 2, 10, 20, 1, 2⟩] : List TransportSim).map Except.ok ++
          .error (.plain "dial tcp: connection refused") ::
            [.ok ⟨none, 0, 0, 0, 0, 0, 0⟩])).2 =
      List.range ([⟨none, 1, 2, 10, 20, 1, 2⟩] : List TransportSim).length ∧
    startedIndices (runHybridLoadTest ⟨"sync", 10⟩
        (([⟨none, 1, 2, 10, 20, 1, 2⟩] : List TransportSim).map Except.ok ++
          .error (.plain "dial tcp: connection refused") ::
            [.ok ⟨none, 0, 0, 0, 0, 0, 0⟩])).2 = []) :=
  ⟨by decide,
    claim_C3_creation_failure_cleanup ⟨"sync", 10⟩
      [⟨none, 1, 2, 10, 20, 1, 2⟩] (.plain "dial tcp: connection refused")
      [.ok ⟨none, 0, 0, 0, 0, 0, 0⟩] (by decide)⟩

end CosmosLoadTester
